import Mathlib

/-!
# api-product: the products table and its HTTP surface

A shallow embedding of `src/server.js`.

* The `products` table (created by `createProductsTable`, lines 24-38) is a list of rows
  in storage order together with the next value of the sequence behind `id SERIAL`.
* Every `client.query(...)` of the source is a function on that table.  A statement first
  converts its parameters to the types of the columns they meet (`INTEGER` for `id`,
  `VARCHAR(255)` for `name`, `VARCHAR(100)` for `category` and `brand`, `DECIMAL(10,2)` for
  `price`); a parameter the column type rejects makes the statement raise, and the table is
  untouched.  `INSERT` appends the new row; `UPDATE` writes a new version of each matched
  row at the end of the table; `DELETE` removes the matched rows.
* Arguments are text for `name`, `category`, `brand` (all `NOT NULL`), optional text for
  `description`, a finite number for `price`, a whole number for `id`.
* `await` is sequential composition: each function threads the table through its queries;
  a statement that raises ends the function (the promise rejects).
* `console.log` output is kept as a list of structured lines, and every function also
  records the statements it sent to the database.
-/

namespace ApiProduct

/-- A price: a finite number, taken at the decimal value JavaScript prints for it (which is
what the driver sends to the database). -/
abbrev Price := ℚ

/-- One row of the `products` table (server.js lines 27-34). -/
structure Product where
  id : Int
  name : String
  category : String
  price : Price
  description : Option String
  brand : String
deriving DecidableEq, Repr

/-- The database behind `client`: the rows of `products` in storage order and the next value
of the sequence that `id SERIAL` draws from. -/
structure Db where
  rows : List Product
  nextId : Int
deriving DecidableEq, Repr

/-- The table right after `CREATE TABLE`: no rows, the sequence starts at 1. -/
def Db.empty : Db := { rows := [], nextId := 1 }

/-- The statements the program sends through `client.query`, with their parameters. -/
inductive Query where
  | selectIdNameByName (name : String)
  | selectIdByName (name : String)
  | insertReturningSome (name category : String) (price : Price)
      (description : Option String) (brand : String)
  | insertReturningAll (name category : String) (price : Price)
      (description : Option String) (brand : String)
  | selectAllOrderById
  | update (name category : String) (price : Price) (description : Option String)
      (brand : String) (id : Int)
  | delete (id : Int)
deriving DecidableEq, Repr

/-- The errors with which the database rejects a statement of this program. -/
inductive DbError where
  | integerOutOfRange
  | valueTooLong (limit : Nat)
  | numericOverflow
  | sequenceExhausted
  | uniqueViolation
deriving DecidableEq, Repr

/-! ## The column types -/

/-- A parameter met by the `INTEGER` column `id`: a signed 32-bit value, anything else is
"out of range for type integer". -/
def int4 (i : Int) : Except DbError Int :=
  if -2147483648 ≤ i ∧ i ≤ 2147483647 then .ok i else .error .integerOutOfRange

/-- A text stored into a `VARCHAR(n)` column: kept when it has at most `n` characters, cut to
`n` characters when the excess is all spaces, rejected otherwise. -/
def varchar (n : Nat) (s : String) : Except DbError String :=
  if s.data.length ≤ n then .ok s
  else if (s.data.drop n).all (fun ch => ch == ' ') then .ok (String.mk (s.data.take n))
  else .error (.valueTooLong n)

/-- Rounding to the nearest whole number, halves away from zero. -/
def roundHalfAway (q : ℚ) : Int :=
  if 0 ≤ q then ⌊q + 1 / 2⌋ else -⌊-q + 1 / 2⌋

/-- A number stored into the `DECIMAL(10,2)` column `price`: rounded to two decimals, and
rejected ("numeric field overflow") when the rounded value needs more than ten digits, that
is when its absolute value reaches 10^8. -/
def decimal10_2 (q : Price) : Except DbError Price :=
  if (roundHalfAway (q * 100)).natAbs < 10000000000 then
    .ok ((roundHalfAway (q * 100) : ℚ) / 100)
  else .error .numericOverflow

/-- The conversion of the parameters `name`, `category`, `price`, `brand` of an `INSERT` or
`UPDATE` to their columns, in the order of the statement (`description` is `TEXT` and takes
any text). -/
def coerceFields (name category : String) (price : Price) (brand : String) :
    Except DbError (String × String × Price × String) :=
  match varchar 255 name with
  | .error e => .error e
  | .ok name =>
    match varchar 100 category with
    | .error e => .error e
    | .ok category =>
      match decimal10_2 price with
      | .error e => .error e
      | .ok price =>
        match varchar 100 brand with
        | .error e => .error e
        | .ok brand => .ok (name, category, price, brand)

/-! ## The SQL statements -/

/-- Rows matched by `WHERE name = $1`. -/
def whereName (db : Db) (name : String) : List Product :=
  db.rows.filter (fun r => r.name == name)

/-- The statement `SELECT id, name FROM products WHERE name = $1` (line 60). -/
def selectIdNameByName (db : Db) (name : String) : List (Int × String) :=
  (whereName db name).map (fun r => (r.id, r.name))

/-- The statement `SELECT id FROM products WHERE name = $1` (line 188). -/
def selectIdByName (db : Db) (name : String) : List Int :=
  (whereName db name).map (fun r => r.id)

/-- The statement `INSERT INTO products (name, category, price, description, brand) VALUES (...)`:
the database afterwards, and the inserted row or the error raised.  The parameters are
converted first; then the row takes the next value of the sequence as its id (the sequence
of a `SERIAL` column ends at 2147483647, and `PRIMARY KEY` rejects an id already in the
table, after the sequence has moved on) and is appended to the table. -/
def insertProduct (db : Db) (name category : String) (price : Price)
    (description : Option String) (brand : String) : Db × Except DbError Product :=
  match coerceFields name category price brand with
  | .error e => (db, .error e)
  | .ok (name, category, price, brand) =>
    if 2147483647 < db.nextId then (db, .error .sequenceExhausted)
    else if db.rows.any (fun r => r.id == db.nextId) then
      ({ db with nextId := db.nextId + 1 }, .error .uniqueViolation)
    else
      let row : Product :=
        { id := db.nextId, name := name, category := category, price := price,
          description := description, brand := brand }
      ({ rows := db.rows ++ [row], nextId := db.nextId + 1 }, .ok row)

/-- The statement `SELECT * FROM products ORDER BY id` (lines 82 and 166). -/
def selectAllOrderById (db : Db) : List Product :=
  db.rows.insertionSort (fun a b => a.id ≤ b.id)

/-- The assignment `SET name = $1, category = $2, price = $3, description = $4, brand = $5`
applied to one row; the `id` column is not assigned. -/
def setFields (r : Product) (name category : String) (price : Price)
    (description : Option String) (brand : String) : Product :=
  { r with name := name, category := category, price := price,
           description := description, brand := brand }

/-- The statement `UPDATE products SET ... WHERE id = $6 RETURNING id, name, price`
(lines 113-116): the returned rows (one per updated row) and the new database, or the error
raised.  The parameters are converted first; the new version of each matched row is written
at the end of the table. -/
def updateWhereId (db : Db) (id : Int) (name category : String) (price : Price)
    (description : Option String) (brand : String) :
    Except DbError (List (Int × String × Price) × Db) :=
  match int4 id with
  | .error e => .error e
  | .ok id =>
    match coerceFields name category price brand with
    | .error e => .error e
    | .ok (name, category, price, brand) =>
      let updated := (db.rows.filter (fun r => r.id = id)).map
        (fun r => setFields r name category price description brand)
      .ok (updated.map (fun r => (r.id, r.name, r.price)),
           { db with rows := db.rows.filter (fun r => r.id ≠ id) ++ updated })

/-- The statement `DELETE FROM products WHERE id = $1 RETURNING id, name` (line 131):
the returned rows (one per deleted row) and the new database, or the error raised. -/
def deleteWhereId (db : Db) (id : Int) : Except DbError (List (Int × String) × Db) :=
  match int4 id with
  | .error e => .error e
  | .ok id =>
    .ok ((db.rows.filter (fun r => r.id = id)).map (fun r => (r.id, r.name)),
         { db with rows := db.rows.filter (fun r => r.id ≠ id) })

/-! ## The console functions -/

/-- One `console.log` call of the console functions, with the values it prints. -/
inductive Line where
  | adding (name : String)
  | alreadyExist (name : String) (id : Int)
  | addingNew (name : String)
  | productAdded (id : Int) (name : String) (price : Price)
  | gettingAll
  | foundProducts (rowCount : Nat)
  | product (id : Int) (name : String) (price : Price) (category : String)
  | updating (id : Int)
  | notFound (id : Int)
  | productUpdated (id : Int) (name : String) (price : Price)
  | deleting (id : Int)
  | productDeleted (id : Int) (name : String)
deriving DecidableEq, Repr

/-- What a JavaScript function hands back to its caller: `undefined`, or a record with an
id, a name and a price. -/
inductive Returned where
  | undefined
  | record (id : Int) (name : String) (price : Price)
deriving DecidableEq, Repr

/-- How a call of an `async` function ends: it returns a value, or a statement raised and
the promise rejects with that error. -/
inductive Completion where
  | returned (value : Returned)
  | raised (error : DbError)
deriving DecidableEq, Repr

/-- The effect of one call of a console function: how it ended, the database afterwards, the
lines logged and the statements sent, both in order. -/
structure Run where
  result : Completion
  db : Db
  console : List Line
  queries : List Query
deriving DecidableEq, Repr

/-- The function `addProduct` (lines 57-77). -/
def addProduct (name category : String) (price : Price) (description : Option String)
    (brand : String) (db : Db) : Run :=
  let existingProduct := selectIdNameByName db name
  match existingProduct with
  | (id, _) :: _ =>
    { result := .returned .undefined, db := db,
      console := [.adding name, .alreadyExist name id],
      queries := [.selectIdNameByName name] }
  | [] =>
    match insertProduct db name category price description brand with
    | (db1, .ok row) =>
      { result := .returned .undefined, db := db1,
        console := [.adding name, .addingNew name, .productAdded row.id row.name row.price],
        queries := [.selectIdNameByName name,
                    .insertReturningSome name category price description brand] }
    | (db1, .error e) =>
      { result := .raised e, db := db1,
        console := [.adding name, .addingNew name],
        queries := [.selectIdNameByName name,
                    .insertReturningSome name category price description brand] }

/-- The function `getAllProducts` (lines 79-90). -/
def getAllProducts (db : Db) : Run :=
  let rows := selectAllOrderById db
  { result := .returned .undefined, db := db,
    console := [.gettingAll, .foundProducts rows.length] ++
      rows.map (fun p => Line.product p.id p.name p.price p.category),
    queries := [.selectAllOrderById] }

/-- The function `updateProduct` (lines 110-126). -/
def updateProduct (id : Int) (name category : String) (price : Price)
    (description : Option String) (brand : String) (db : Db) : Run :=
  match updateWhereId db id name category price description brand with
  | .error e =>
    { result := .raised e, db := db,
      console := [.updating id],
      queries := [.update name category price description brand id] }
  | .ok ([], db1) =>
    { result := .returned .undefined, db := db1,
      console := [.updating id, .notFound id],
      queries := [.update name category price description brand id] }
  | .ok ((rid, rname, rprice) :: _, db1) =>
    { result := .returned .undefined, db := db1,
      console := [.updating id, .productUpdated rid rname rprice],
      queries := [.update name category price description brand id] }

/-- The function `deleteProduct` (lines 128-141). -/
def deleteProduct (id : Int) (db : Db) : Run :=
  match deleteWhereId db id with
  | .error e =>
    { result := .raised e, db := db,
      console := [.deleting id],
      queries := [.delete id] }
  | .ok ([], db1) =>
    { result := .returned .undefined, db := db1,
      console := [.deleting id, .notFound id],
      queries := [.delete id] }
  | .ok ((rid, rname) :: _, db1) =>
    { result := .returned .undefined, db := db1,
      console := [.deleting id, .productDeleted rid rname],
      queries := [.delete id] }

/-! ## The HTTP handlers -/

/-- The JSON body of `POST /api/products` after `express.json()`: each field is absent
(`none`: the property is missing or `null`) or holds a value of its column's type. -/
structure Body where
  name : Option String
  category : Option String
  price : Option Price
  description : Option String
  brand : Option String
deriving DecidableEq, Repr

/-- JavaScript `!v` on a text field: true when the field is absent or the empty string. -/
def notText : Option String → Bool
  | none => true
  | some s => s == ""

/-- JavaScript `!v` on a numeric field: true when the field is absent or zero. -/
def notNumber : Option Price → Bool
  | none => true
  | some p => p == 0

/-- The object passed to `res.json`. -/
inductive Json where
  | failure (success : Bool) (error : String)
  | created (success : Bool) (data : Product)
  | listing (success : Bool) (count : Nat) (data : List Product)
deriving DecidableEq, Repr

/-- An HTTP response: status code and JSON body. -/
structure Response where
  status : Nat
  body : Json
deriving DecidableEq, Repr

/-- What the client gets: the response the handler sent, or none, when a statement raised
inside the handler (the rejection is not caught and the request is never answered). -/
inductive Reply where
  | sent (response : Response)
  | unanswered (error : DbError)
deriving DecidableEq, Repr

/-- The effect of one request: what the client gets, the database afterwards and the
statements sent. -/
structure Handled where
  response : Reply
  db : Db
  queries : List Query
deriving DecidableEq, Repr

/-- The text of the 400 response (line 183). -/
def requiredMessage : String := "Field name, category, price and brand are required!"

/-- The text of the 409 response (line 194). -/
def duplicateMessage (name : String) : String := "Product \"" ++ name ++ "\" already exist"

/-- The 400 outcome of `POST /api/products` (lines 181-184): nothing is sent to the database. -/
def badRequest (db : Db) : Handled :=
  { response := .sent { status := 400, body := .failure false requiredMessage },
    db := db, queries := [] }

/-- The handler of `GET /api/products` (lines 165-174); `res.json` without `res.status`
answers 200. -/
def getProducts (db : Db) : Handled :=
  let rows := selectAllOrderById db
  { response := .sent { status := 200, body := .listing true rows.length rows },
    db := db, queries := [.selectAllOrderById] }

/-- The handler of `POST /api/products` (lines 176-211). -/
def postProducts (body : Body) (db : Db) : Handled :=
  if notText body.name || notText body.category || notNumber body.price || notText body.brand then
    badRequest db
  else
    match body.name, body.category, body.price, body.brand with
    | some name, some category, some price, some brand =>
      let existing := selectIdByName db name
      if existing.length > 0 then
        { response := .sent { status := 409, body := .failure false (duplicateMessage name) },
          db := db, queries := [.selectIdByName name] }
      else
        match insertProduct db name category price body.description brand with
        | (db1, .ok row) =>
          { response := .sent { status := 201, body := .created true row },
            db := db1,
            queries := [.selectIdByName name,
                        .insertReturningAll name category price body.description brand] }
        | (db1, .error e) =>
          { response := .unanswered e,
            db := db1,
            queries := [.selectIdByName name,
                        .insertReturningAll name category price body.description brand] }
    | _, _, _, _ => badRequest db

/-! ## Sequential use -/

/-- A write operation on the store: a call of a console function or a `POST` request. -/
inductive Op where
  | add (name category : String) (price : Price) (description : Option String) (brand : String)
  | update (id : Int) (name category : String) (price : Price) (description : Option String)
      (brand : String)
  | delete (id : Int)
  | post (body : Body)
deriving DecidableEq, Repr

/-- The database after one write operation. -/
def step (db : Db) : Op → Db
  | .add name category price description brand =>
    (addProduct name category price description brand db).db
  | .update id name category price description brand =>
    (updateProduct id name category price description brand db).db
  | .delete id => (deleteProduct id db).db
  | .post body => (postProducts body db).db

/-- The database after a sequence of write operations, one after the other. -/
def run (db : Db) (ops : List Op) : Db := ops.foldl step db

/-! ## Predicates used in the statements -/

/-- No two stored products share a name. -/
def UniqueNames (db : Db) : Prop := db.rows.Pairwise (fun a b => a.name ≠ b.name)

/-- The stored ids are pairwise distinct and lie below the next value of the sequence. -/
def SerialIds (db : Db) : Prop :=
  (db.rows.map (fun r => r.id)).Nodup ∧ ∀ r ∈ db.rows, r.id < db.nextId

/-- The number of stored products with the given name. -/
def countName (db : Db) (name : String) : Nat := (whereName db name).length

/-- The price as the `DECIMAL(10,2)` column keeps it: rounded to two decimals. -/
def stored (price : Price) : Price := (roundHalfAway (price * 100) : ℚ) / 100

/-- The values fit their columns: `name` has at most 255 characters, `category` and `brand`
at most 100, and the price rounded to two decimals is below 10^8 in absolute value. -/
def Fits (name category : String) (price : Price) (brand : String) : Prop :=
  name.data.length ≤ 255 ∧ category.data.length ≤ 100 ∧
  (roundHalfAway (price * 100)).natAbs < 10000000000 ∧ brand.data.length ≤ 100

/-- The sequence can supply an id: its next value is within `INTEGER` and not yet in the
table. -/
def Ready (db : Db) : Prop :=
  db.nextId ≤ 2147483647 ∧ ∀ r ∈ db.rows, r.id ≠ db.nextId

/-- The id is a signed 32-bit value. -/
def InRange (id : Int) : Prop := -2147483648 ≤ id ∧ id ≤ 2147483647

/-! ## Lemmas on the column types and the statements -/

theorem varchar_of_le {n : Nat} {s : String} (h : s.data.length ≤ n) : varchar n s = .ok s := by
  unfold varchar
  rw [if_pos h]

theorem int4_of_inRange {id : Int} (h : InRange id) : int4 id = .ok id := by
  unfold InRange at h
  simp [int4, h]

theorem coerceFields_of_fits {n c b : String} {p : Price} (h : Fits n c p b) :
    coerceFields n c p b = .ok (n, c, stored p, b) := by
  obtain ⟨h1, h2, h3, h4⟩ := h
  simp [coerceFields, varchar_of_le h1, varchar_of_le h2, varchar_of_le h4, decimal10_2, h3,
    stored]

theorem stored_cents (k : Int) : stored ((k : ℚ) / 100) = (k : ℚ) / 100 := by
  have h100 : (k : ℚ) / 100 * 100 = (k : ℚ) := by field_simp
  have hfloor : ∀ j : Int, ⌊(j : ℚ) + 1 / 2⌋ = j := by
    intro j
    rw [Int.floor_eq_iff]
    constructor <;> norm_num
  unfold stored roundHalfAway
  rw [h100]
  by_cases hk : (0 : ℚ) ≤ (k : ℚ)
  · rw [if_pos hk, hfloor]
  · rw [if_neg hk]
    have h2 : -(k : ℚ) = ((-k : Int) : ℚ) := by push_cast; ring
    rw [h2, hfloor]
    push_cast
    ring

theorem whereName_eq_nil_iff {db : Db} {n : String} :
    whereName db n = [] ↔ ∀ r ∈ db.rows, r.name ≠ n := by
  unfold whereName
  rw [List.filter_eq_nil_iff]
  simp

theorem whereName_eq_nil {db : Db} {n : String} (h : ∀ r ∈ db.rows, r.name ≠ n) :
    whereName db n = [] := whereName_eq_nil_iff.2 h

theorem whereName_append_new {db : Db} {n : String} (h : ∀ r ∈ db.rows, r.name ≠ n)
    (row : Product) (hrow : row.name = n) (k : Int) :
    whereName { rows := db.rows ++ [row], nextId := k } n = [row] := by
  have h0 : List.filter (fun r : Product => r.name == n) db.rows = [] := whereName_eq_nil h
  simp [whereName, List.filter_append, h0, hrow]

theorem insertProduct_of_fits {db : Db} {n c b : String} {p : Price} (hfit : Fits n c p b)
    (hready : Ready db) (d : Option String) :
    insertProduct db n c p d b =
      ({ rows := db.rows ++ [{ id := db.nextId, name := n, category := c, price := stored p,
                               description := d, brand := b }],
         nextId := db.nextId + 1 },
       .ok { id := db.nextId, name := n, category := c, price := stored p,
             description := d, brand := b }) := by
  obtain ⟨hseq, hfree⟩ := hready
  have hany : db.rows.any (fun r => r.id == db.nextId) = false := by
    rw [List.any_eq_false]
    intro r hr
    simpa using hfree r hr
  simp [insertProduct, coerceFields_of_fits hfit, not_lt.2 hseq, hany]

/-- What an `INSERT` can do to the table: raise and leave the rows alone (the sequence may
move on), or append one row that carries the next value of the sequence. -/
theorem insertProduct_cases (db : Db) (n c : String) (p : Price) (d : Option String)
    (b : String) :
    ((∃ e, (insertProduct db n c p d b).2 = .error e) ∧
      (insertProduct db n c p d b).1.rows = db.rows ∧
      db.nextId ≤ (insertProduct db n c p d b).1.nextId) ∨
    (∃ row : Product,
      (insertProduct db n c p d b).2 = .ok row ∧ row.id = db.nextId ∧
      varchar 255 n = .ok row.name ∧
      (insertProduct db n c p d b).1 =
        { rows := db.rows ++ [row], nextId := db.nextId + 1 }) := by
  unfold insertProduct coerceFields
  cases hn : varchar 255 n with
  | error e => exact Or.inl ⟨⟨e, rfl⟩, rfl, le_refl _⟩
  | ok n1 =>
    cases hc : varchar 100 c with
    | error e => exact Or.inl ⟨⟨e, rfl⟩, rfl, le_refl _⟩
    | ok c1 =>
      cases hp : decimal10_2 p with
      | error e => exact Or.inl ⟨⟨e, rfl⟩, rfl, le_refl _⟩
      | ok p1 =>
        cases hb : varchar 100 b with
        | error e => exact Or.inl ⟨⟨e, rfl⟩, rfl, le_refl _⟩
        | ok b1 =>
          simp only
          by_cases hseq : 2147483647 < db.nextId
          · rw [if_pos hseq]
            exact Or.inl ⟨⟨_, rfl⟩, rfl, le_refl _⟩
          · rw [if_neg hseq]
            by_cases hany : db.rows.any (fun r => r.id == db.nextId) = true
            · rw [if_pos hany]
              exact Or.inl ⟨⟨_, rfl⟩, rfl, by simp⟩
            · rw [if_neg hany]
              exact Or.inr ⟨_, rfl, rfl, rfl, rfl⟩

theorem addProduct_fresh {db : Db} {n c b : String} {p : Price}
    (h : ∀ r ∈ db.rows, r.name ≠ n) (hfit : Fits n c p b) (hready : Ready db)
    (d : Option String) :
    addProduct n c p d b db =
      { result := .returned .undefined,
        db := { rows := db.rows ++ [{ id := db.nextId, name := n, category := c,
                                      price := stored p, description := d, brand := b }],
                nextId := db.nextId + 1 },
        console := [.adding n, .addingNew n, .productAdded db.nextId n (stored p)],
        queries := [.selectIdNameByName n, .insertReturningSome n c p d b] } := by
  simp [addProduct, selectIdNameByName, whereName_eq_nil h, insertProduct_of_fits hfit hready]

theorem addProduct_stored {db : Db} {n : String} {r : Product} {rest : List Product}
    (h : whereName db n = r :: rest)
    (c : String) (p : Price) (d : Option String) (b : String) :
    addProduct n c p d b db =
      { result := .returned .undefined, db := db,
        console := [.adding n, .alreadyExist n r.id],
        queries := [.selectIdNameByName n] } := by
  simp [addProduct, selectIdNameByName, h]

theorem postProducts_fresh {db : Db} {n c b : String} {p : Price}
    (h : ∀ r ∈ db.rows, r.name ≠ n) (hfit : Fits n c p b) (hready : Ready db)
    (hn : n ≠ "") (hc : c ≠ "") (hp : p ≠ 0) (hb : b ≠ "") (d : Option String) :
    postProducts { name := some n, category := some c, price := some p, description := d,
                   brand := some b } db =
      { response := .sent
          { status := 201,
            body := .created true { id := db.nextId, name := n, category := c,
                                    price := stored p, description := d, brand := b } },
        db := { rows := db.rows ++ [{ id := db.nextId, name := n, category := c,
                                      price := stored p, description := d, brand := b }],
                nextId := db.nextId + 1 },
        queries := [.selectIdByName n, .insertReturningAll n c p d b] } := by
  simp [postProducts, notText, notNumber, hn, hc, hp, hb, selectIdByName, whereName_eq_nil h,
    insertProduct_of_fits hfit hready]

theorem postProducts_stored {db : Db} {n : String} {r : Product} {rest : List Product}
    (h : whereName db n = r :: rest)
    (hn : n ≠ "") (c : String) (hc : c ≠ "") (p : Price) (hp : p ≠ 0) (d : Option String)
    (b : String) (hb : b ≠ "") :
    postProducts { name := some n, category := some c, price := some p, description := d,
                   brand := some b } db =
      { response := .sent { status := 409, body := .failure false (duplicateMessage n) },
        db := db, queries := [.selectIdByName n] } := by
  simp [postProducts, notText, notNumber, hn, hc, hp, hb, selectIdByName, h]

/-! ## POST /api/products -/

/-- C1: a `POST /api/products` whose body lacks one of `name`, `category`, `price`, `brand`
(the field is absent, or is the empty string) is answered 400 with the required-fields
error; no statement is sent to the database and the store is unchanged. -/
theorem postProducts_missing_field (db : Db) (body : Body)
    (h : (body.name = none ∨ body.name = some "") ∨
         (body.category = none ∨ body.category = some "") ∨
         body.price = none ∨
         (body.brand = none ∨ body.brand = some "")) :
    postProducts body db =
      { response := .sent
          { status := 400,
            body := .failure false "Field name, category, price and brand are required!" },
        db := db, queries := [] } := by
  have hcond : (notText body.name || notText body.category || notNumber body.price
      || notText body.brand) = true := by
    rcases h with (h | h) | (h | h) | h | (h | h) <;> simp [h, notText, notNumber]
  simp [postProducts, hcond, badRequest, requiredMessage]

theorem postProducts_missing_field_witness :
    postProducts { name := none, category := some "x", price := some 1, description := none,
                   brand := some "y" }
        { rows := [{ id := 1, name := "Widget", category := "tools", price := 5,
                     description := none, brand := "BrandX" }], nextId := 2 } =
      { response := .sent
          { status := 400,
            body := .failure false "Field name, category, price and brand are required!" },
        db := { rows := [{ id := 1, name := "Widget", category := "tools", price := 5,
                           description := none, brand := "BrandX" }], nextId := 2 },
        queries := [] } :=
  postProducts_missing_field _ _ (Or.inl (Or.inl rfl))

/-- C2, at the failing input: a body with non-empty `name`, `category`, `brand` and price 0
is answered 400 with the required-fields error, not 201; nothing is inserted. -/
theorem postProducts_zero_price (db : Db) (name category brand : String)
    (description : Option String) :
    postProducts { name := some name, category := some category, price := some 0,
                   description := description, brand := some brand } db =
      { response := .sent
          { status := 400,
            body := .failure false "Field name, category, price and brand are required!" },
        db := db, queries := [] } := by
  simp [postProducts, notNumber, badRequest, requiredMessage]

/-- C3, at the failing input: two sequential posts of the same body with price 0 are both
answered 400 (not 201 then 409), and no record of that name is stored. -/
theorem postProducts_twice_zero_price :
    (postProducts { name := some "Gift", category := some "promo", price := some 0,
                    description := some "free", brand := some "Acme" } Db.empty).response
      = .sent { status := 400,
                body := .failure false "Field name, category, price and brand are required!" } ∧
    (postProducts { name := some "Gift", category := some "promo", price := some 0,
                    description := some "free", brand := some "Acme" }
      (postProducts { name := some "Gift", category := some "promo", price := some 0,
                      description := some "free", brand := some "Acme" } Db.empty).db).response
      = .sent { status := 400,
                body := .failure false "Field name, category, price and brand are required!" } ∧
    countName
      (postProducts { name := some "Gift", category := some "promo", price := some 0,
                      description := some "free", brand := some "Acme" }
        (postProducts { name := some "Gift", category := some "promo", price := some 0,
                        description := some "free", brand := some "Acme" } Db.empty).db).db
      "Gift" = 0 := by
  decide

/-- The successful path of `POST /api/products`: with non-empty `name`, `category`, `brand`
that fit their columns, a price other than 0 that fits its column, a sequence able to supply
an id and no stored product of that name, the answer is 201 with the inserted product, which
carries the submitted name, category, description and brand, the price rounded to two
decimals and the next id of the sequence, and the store is the old store followed by that
product. -/
theorem postProducts_created (db : Db) (n c b : String) (p : Price) (d : Option String)
    (hn : n ≠ "") (hc : c ≠ "") (hp : p ≠ 0) (hb : b ≠ "")
    (hfit : Fits n c p b) (hready : Ready db)
    (h : ∀ r ∈ db.rows, r.name ≠ n) :
    (postProducts { name := some n, category := some c, price := some p, description := d,
                    brand := some b } db).response =
      .sent { status := 201,
              body := .created true { id := db.nextId, name := n, category := c,
                                      price := stored p, description := d, brand := b } } ∧
    (postProducts { name := some n, category := some c, price := some p, description := d,
                    brand := some b } db).db.rows =
      db.rows ++ [{ id := db.nextId, name := n, category := c, price := stored p,
                    description := d, brand := b }] := by
  rw [postProducts_fresh h hfit hready hn hc hp hb d]
  exact ⟨rfl, rfl⟩

/-- Two sequential posts with the same name and prices other than 0, starting from a store
without that name, the first with values that fit their columns and a sequence able to supply
an id: 201, then 409 with the duplicate error after a single statement (the duplicate check),
the store unchanged by the second post and holding one record of that name. -/
theorem postProducts_twice (db : Db) (n c1 c2 b1 b2 : String) (p1 p2 : Price)
    (d1 d2 : Option String)
    (hn : n ≠ "") (hc1 : c1 ≠ "") (hp1 : p1 ≠ 0) (hb1 : b1 ≠ "")
    (hc2 : c2 ≠ "") (hp2 : p2 ≠ 0) (hb2 : b2 ≠ "")
    (hfit : Fits n c1 p1 b1) (hready : Ready db)
    (h : ∀ r ∈ db.rows, r.name ≠ n) :
    (postProducts { name := some n, category := some c1, price := some p1, description := d1,
                    brand := some b1 } db).response =
      .sent { status := 201,
              body := .created true { id := db.nextId, name := n, category := c1,
                                      price := stored p1, description := d1, brand := b1 } } ∧
    postProducts { name := some n, category := some c2, price := some p2, description := d2,
                   brand := some b2 }
        (postProducts { name := some n, category := some c1, price := some p1,
                        description := d1, brand := some b1 } db).db =
      { response := .sent { status := 409,
                            body := .failure false ("Product \"" ++ n ++ "\" already exist") },
        db := (postProducts { name := some n, category := some c1, price := some p1,
                              description := d1, brand := some b1 } db).db,
        queries := [.selectIdByName n] } ∧
    countName (postProducts { name := some n, category := some c1, price := some p1,
                              description := d1, brand := some b1 } db).db n = 1 := by
  rw [postProducts_fresh h hfit hready hn hc1 hp1 hb1 d1]
  have hw := whereName_append_new h
    { id := db.nextId, name := n, category := c1, price := stored p1, description := d1,
      brand := b1 } rfl (db.nextId + 1)
  refine ⟨rfl, ?_, ?_⟩
  · rw [postProducts_stored hw hn c2 hc2 p2 hp2 d2 b2 hb2]
    rfl
  · simp [countName, hw]

/-! ## addProduct -/

/-- C4 fails as stated: on the empty table `addProduct` with price 100000000 raises "numeric
field overflow" and stores nothing, so a second call with the same name and price 5 does
insert (the store after two calls is not the store after the first), and with the same
price again no record of that name is stored at all. -/
theorem addProduct_twice_overflow_example :
    (addProduct "Widget" "tools" 100000000 none "BrandX" Db.empty).result =
      Completion.raised DbError.numericOverflow ∧
    (addProduct "Widget" "tools" 100000000 none "BrandX" Db.empty).db.rows = [] ∧
    (addProduct "Widget" "tools" 5 none "BrandX"
        (addProduct "Widget" "tools" 100000000 none "BrandX" Db.empty).db).db ≠
      (addProduct "Widget" "tools" 100000000 none "BrandX" Db.empty).db ∧
    countName (addProduct "Widget" "tools" 100000000 none "BrandX"
        (addProduct "Widget" "tools" 100000000 none "BrandX" Db.empty).db).db "Widget" = 0 := by
  decide!

/-- C4 as amended: from a store with no product named `n`, when the values of the first call
fit their columns and the sequence can supply an id, the first `addProduct` inserts one
record named `n` and the second call with name `n` (any other arguments) sends only the
duplicate check and inserts nothing: the store after it equals the store after the first
call and holds exactly one record named `n`. -/
theorem addProduct_twice (db : Db) (n c1 c2 b1 b2 : String) (p1 p2 : Price)
    (d1 d2 : Option String) (h : ∀ r ∈ db.rows, r.name ≠ n)
    (hfit : Fits n c1 p1 b1) (hready : Ready db) :
    (addProduct n c1 p1 d1 b1 db).result = Completion.returned Returned.undefined ∧
    (addProduct n c1 p1 d1 b1 db).db.rows =
      db.rows ++ [{ id := db.nextId, name := n, category := c1, price := stored p1,
                    description := d1, brand := b1 }] ∧
    (addProduct n c2 p2 d2 b2 (addProduct n c1 p1 d1 b1 db).db).db =
      (addProduct n c1 p1 d1 b1 db).db ∧
    (addProduct n c2 p2 d2 b2 (addProduct n c1 p1 d1 b1 db).db).queries =
      [.selectIdNameByName n] ∧
    countName (addProduct n c2 p2 d2 b2 (addProduct n c1 p1 d1 b1 db).db).db n = 1 := by
  rw [addProduct_fresh h hfit hready d1]
  have hw := whereName_append_new h
    { id := db.nextId, name := n, category := c1, price := stored p1, description := d1,
      brand := b1 } rfl (db.nextId + 1)
  rw [addProduct_stored hw c2 p2 d2 b2]
  refine ⟨rfl, rfl, rfl, rfl, ?_⟩
  simp [countName, hw]

theorem addProduct_twice_witness :
    (addProduct "Widget" "tools" 5 (some "desc") "BrandX" Db.empty).result =
      Completion.returned Returned.undefined ∧
    (addProduct "Widget" "tools" 5 (some "desc") "BrandX" Db.empty).db.rows =
      [] ++ [{ id := 1, name := "Widget", category := "tools", price := stored 5,
               description := some "desc", brand := "BrandX" }] ∧
    (addProduct "Widget" "garden" 100000000 none "Other"
        (addProduct "Widget" "tools" 5 (some "desc") "BrandX" Db.empty).db).db =
      (addProduct "Widget" "tools" 5 (some "desc") "BrandX" Db.empty).db ∧
    (addProduct "Widget" "garden" 100000000 none "Other"
        (addProduct "Widget" "tools" 5 (some "desc") "BrandX" Db.empty).db).queries =
      [.selectIdNameByName "Widget"] ∧
    countName (addProduct "Widget" "garden" 100000000 none "Other"
        (addProduct "Widget" "tools" 5 (some "desc") "BrandX" Db.empty).db).db "Widget" = 1 :=
  addProduct_twice Db.empty "Widget" "tools" "garden" "BrandX" "Other" 5 100000000
    (some "desc") none (by simp [Db.empty]) (by unfold Fits; decide!)
    (by unfold Ready; simp [Db.empty])

/-- C10 fails as stated: `addProduct` on the empty table creates record 1 but hands back
`undefined`, not that record, and the same value as the call that finds the name stored;
the price it logs is the stored one (1.01 for 1.005), and with price 100000000 the call
raises instead of returning. -/
theorem addProduct_returned_example :
    (addProduct "Widget" "tools" 5 (some "desc") "BrandX" Db.empty).db.rows =
      [{ id := 1, name := "Widget", category := "tools", price := 5,
         description := some "desc", brand := "BrandX" }] ∧
    (addProduct "Widget" "tools" 5 (some "desc") "BrandX" Db.empty).result ≠
      Completion.returned (Returned.record 1 "Widget" 5) ∧
    (addProduct "Widget" "tools" 5 (some "desc") "BrandX" Db.empty).result =
      (addProduct "Widget" "tools" 5 (some "desc") "BrandX"
        (addProduct "Widget" "tools" 5 (some "desc") "BrandX" Db.empty).db).result ∧
    (addProduct "Widget" "tools" 1.005 none "BrandX" Db.empty).console =
      [.adding "Widget", .addingNew "Widget", .productAdded 1 "Widget" 1.01] ∧
    (addProduct "Widget" "tools" 100000000 none "BrandX" Db.empty).result =
      Completion.raised DbError.numericOverflow := by
  decide!

/-- C10 as amended: from a store with no product of the given name, when the values fit
their columns and the sequence can supply an id, `addProduct` inserts the record, logs the
created record's id, name and stored price (the given price rounded to two decimals), and
returns `undefined`; a further call with that name also returns `undefined`, and differs by
logging the stored id and inserting nothing. -/
theorem addProduct_outcome (db : Db) (n c c2 b b2 : String) (p p2 : Price)
    (d d2 : Option String) (h : ∀ r ∈ db.rows, r.name ≠ n)
    (hfit : Fits n c p b) (hready : Ready db) :
    (addProduct n c p d b db).result = Completion.returned Returned.undefined ∧
    (addProduct n c p d b db).console =
      [.adding n, .addingNew n, .productAdded db.nextId n (stored p)] ∧
    (addProduct n c p d b db).db.rows =
      db.rows ++ [{ id := db.nextId, name := n, category := c, price := stored p,
                    description := d, brand := b }] ∧
    (addProduct n c2 p2 d2 b2 (addProduct n c p d b db).db).result =
      Completion.returned Returned.undefined ∧
    (addProduct n c2 p2 d2 b2 (addProduct n c p d b db).db).console =
      [.adding n, .alreadyExist n db.nextId] ∧
    (addProduct n c2 p2 d2 b2 (addProduct n c p d b db).db).db = (addProduct n c p d b db).db := by
  rw [addProduct_fresh h hfit hready d]
  have hw := whereName_append_new h
    { id := db.nextId, name := n, category := c, price := stored p, description := d,
      brand := b } rfl (db.nextId + 1)
  rw [addProduct_stored hw c2 p2 d2 b2]
  exact ⟨rfl, rfl, rfl, rfl, rfl, rfl⟩

theorem addProduct_outcome_witness :
    (addProduct "Widget" "tools" 5 (some "desc") "BrandX" Db.empty).result
      = Completion.returned Returned.undefined ∧
    (addProduct "Widget" "tools" 5 (some "desc") "BrandX" Db.empty).console =
      [.adding "Widget", .addingNew "Widget", .productAdded 1 "Widget" (stored 5)] ∧
    (addProduct "Widget" "tools" 5 (some "desc") "BrandX" Db.empty).db.rows =
      [] ++ [{ id := 1, name := "Widget", category := "tools", price := stored 5,
               description := some "desc", brand := "BrandX" }] ∧
    (addProduct "Widget" "garden" 7 none "Other"
      (addProduct "Widget" "tools" 5 (some "desc") "BrandX" Db.empty).db).result
      = Completion.returned Returned.undefined ∧
    (addProduct "Widget" "garden" 7 none "Other"
      (addProduct "Widget" "tools" 5 (some "desc") "BrandX" Db.empty).db).console =
      [.adding "Widget", .alreadyExist "Widget" 1] ∧
    (addProduct "Widget" "garden" 7 none "Other"
      (addProduct "Widget" "tools" 5 (some "desc") "BrandX" Db.empty).db).db =
      (addProduct "Widget" "tools" 5 (some "desc") "BrandX" Db.empty).db :=
  addProduct_outcome Db.empty "Widget" "tools" "garden" "BrandX" "Other" 5 7 (some "desc") none
    (by simp [Db.empty]) (by unfold Fits; decide!) (by unfold Ready; simp [Db.empty])

/-! ## updateProduct and deleteProduct -/

theorem filter_id_eq_nil {l : List Product} {id : Int} (h : ∀ r ∈ l, r.id ≠ id) :
    l.filter (fun r => r.id = id) = [] := by
  rw [List.filter_eq_nil_iff]
  intro r hr
  simpa using h r hr

theorem filter_id_ne_self {l : List Product} {id : Int} (h : ∀ r ∈ l, r.id ≠ id) :
    l.filter (fun r => r.id ≠ id) = l := by
  rw [List.filter_eq_self]
  intro r hr
  simpa using h r hr

theorem filter_id_eq_singleton {l : List Product} {r : Product}
    (hnd : (l.map (fun q => q.id)).Nodup) (hr : r ∈ l) :
    l.filter (fun q => q.id = r.id) = [r] := by
  induction l with
  | nil => cases hr
  | cons a t ih =>
    rw [List.map_cons, List.nodup_cons] at hnd
    obtain ⟨hat, hnt⟩ := hnd
    have hne : ∀ q ∈ t, q.id ≠ a.id := fun q hq he =>
      hat (he ▸ List.mem_map_of_mem (fun q => q.id) hq)
    rcases List.mem_cons.1 hr with rfl | hrt
    · simp [filter_id_eq_nil hne]
    · have har : a.id ≠ r.id := fun he => hne r hrt he.symm
      simp [har, ih hnt hrt]

theorem filter_id_ne_erase {l : List Product} {r : Product}
    (hnd : (l.map (fun q => q.id)).Nodup) (hr : r ∈ l) :
    l.filter (fun q => q.id ≠ r.id) = l.erase r := by
  induction l with
  | nil => cases hr
  | cons a t ih =>
    rw [List.map_cons, List.nodup_cons] at hnd
    obtain ⟨hat, hnt⟩ := hnd
    have hne : ∀ q ∈ t, q.id ≠ a.id := fun q hq he =>
      hat (he ▸ List.mem_map_of_mem (fun q => q.id) hq)
    rcases List.mem_cons.1 hr with rfl | hrt
    · simpa using hne
    · have har : a.id ≠ r.id := fun he => hne r hrt he.symm
      have har2 : a ≠ r := fun he => har (he ▸ rfl)
      simpa [har, har2] using ih hnt hrt

theorem updateWhereId_of_fits {db : Db} {id : Int} {n c b : String} {p : Price}
    (hid : InRange id) (hfit : Fits n c p b) (d : Option String) :
    updateWhereId db id n c p d b =
      .ok (((db.rows.filter (fun r => r.id = id)).map
              (fun r => setFields r n c (stored p) d b)).map (fun r => (r.id, r.name, r.price)),
           { rows := db.rows.filter (fun r => r.id ≠ id) ++
                       (db.rows.filter (fun r => r.id = id)).map
                         (fun r => setFields r n c (stored p) d b),
             nextId := db.nextId }) := by
  simp only [updateWhereId, int4_of_inRange hid, coerceFields_of_fits hfit]

theorem deleteWhereId_of_inRange {db : Db} {id : Int} (hid : InRange id) :
    deleteWhereId db id =
      .ok ((db.rows.filter (fun r => r.id = id)).map (fun r => (r.id, r.name)),
           { rows := db.rows.filter (fun r => r.id ≠ id), nextId := db.nextId }) := by
  simp only [deleteWhereId, int4_of_inRange hid]

/-- C7 fails as stated: for the id 2147483648, which matches no stored product, the UPDATE
is rejected ("out of range for type integer"): `updateProduct` raises and never logs the
not-found line. -/
theorem updateProduct_out_of_range_example :
    (∀ r ∈ ([{ id := 1, name := "Widget", category := "tools", price := 5,
               description := none, brand := "BrandX" }] : List Product),
        r.id ≠ 2147483648) ∧
    updateProduct 2147483648 "MacBook" "laptops" 2299 none "Apple"
        { rows := [{ id := 1, name := "Widget", category := "tools", price := 5,
                     description := none, brand := "BrandX" }], nextId := 2 } =
      { result := .raised .integerOutOfRange,
        db := { rows := [{ id := 1, name := "Widget", category := "tools", price := 5,
                           description := none, brand := "BrandX" }], nextId := 2 },
        console := [.updating 2147483648],
        queries := [.update "MacBook" "laptops" 2299 none "Apple" 2147483648] } := by
  decide!

/-- C7 as amended: for an id within the 32-bit `INTEGER` range that matches no stored
product, and field values that fit their columns, `updateProduct` leaves the store exactly
as it was and takes the not-found branch: one UPDATE statement, zero rows, the lines
"Updating" and "was not found", no error raised and no value returned. -/
theorem updateProduct_not_found (db : Db) (id : Int) (n c : String) (p : Price)
    (d : Option String) (b : String) (hid : InRange id) (hfit : Fits n c p b)
    (h : ∀ r ∈ db.rows, r.id ≠ id) :
    updateWhereId db id n c p d b = .ok ([], db) ∧
    updateProduct id n c p d b db =
      { result := .returned .undefined, db := db,
        console := [.updating id, .notFound id],
        queries := [.update n c p d b id] } := by
  have hu : updateWhereId db id n c p d b = .ok ([], db) := by
    rw [updateWhereId_of_fits hid hfit d, filter_id_eq_nil h, filter_id_ne_self h]
    simp
  refine ⟨hu, ?_⟩
  simp only [updateProduct, hu]

theorem updateProduct_not_found_witness :
    updateWhereId
        { rows := [{ id := 1, name := "Widget", category := "tools", price := 5,
                     description := none, brand := "BrandX" }], nextId := 2 }
        4 "MacBook" "laptops" 2299.99 none "Apple" =
      .ok ([], { rows := [{ id := 1, name := "Widget", category := "tools", price := 5,
                            description := none, brand := "BrandX" }], nextId := 2 }) ∧
    updateProduct 4 "MacBook" "laptops" 2299.99 none "Apple"
        { rows := [{ id := 1, name := "Widget", category := "tools", price := 5,
                     description := none, brand := "BrandX" }], nextId := 2 } =
      { result := .returned .undefined,
        db := { rows := [{ id := 1, name := "Widget", category := "tools", price := 5,
                           description := none, brand := "BrandX" }], nextId := 2 },
        console := [.updating 4, .notFound 4],
        queries := [.update "MacBook" "laptops" 2299.99 none "Apple" 4] } :=
  updateProduct_not_found _ 4 "MacBook" "laptops" 2299.99 none "Apple"
    (by unfold InRange; decide) (by unfold Fits; decide!) (by simp)

/-- C9 fails as stated: updating record 2 with the price 2299.999 stores and logs 2300, not
the given value, and with the price 100000000 the UPDATE is rejected ("numeric field
overflow"), so nothing is replaced. -/
theorem updateProduct_rounding_example :
    updateProduct 2 "MacBook" "laptops" 2299.999 none "Apple"
        { rows := [{ id := 1, name := "Widget", category := "tools", price := 5,
                     description := none, brand := "BrandX" },
                   { id := 2, name := "Laptop", category := "laptops", price := 1999,
                     description := some "M3", brand := "Apple" }],
          nextId := 3 } =
      { result := .returned .undefined,
        db := { rows := [{ id := 1, name := "Widget", category := "tools", price := 5,
                           description := none, brand := "BrandX" },
                         { id := 2, name := "MacBook", category := "laptops", price := 2300,
                           description := none, brand := "Apple" }],
                nextId := 3 },
        console := [.updating 2, .productUpdated 2 "MacBook" 2300],
        queries := [.update "MacBook" "laptops" 2299.999 none "Apple" 2] } ∧
    (2300 : Price) ≠ 2299.999 ∧
    updateProduct 2 "MacBook" "laptops" 100000000 none "Apple"
        { rows := [{ id := 1, name := "Widget", category := "tools", price := 5,
                     description := none, brand := "BrandX" },
                   { id := 2, name := "Laptop", category := "laptops", price := 1999,
                     description := some "M3", brand := "Apple" }],
          nextId := 3 } =
      { result := .raised .numericOverflow,
        db := { rows := [{ id := 1, name := "Widget", category := "tools", price := 5,
                           description := none, brand := "BrandX" },
                         { id := 2, name := "Laptop", category := "laptops", price := 1999,
                           description := some "M3", brand := "Apple" }],
                nextId := 3 },
        console := [.updating 2],
        queries := [.update "MacBook" "laptops" 100000000 none "Apple" 2] } := by
  decide!

/-- C9 as amended: in a store with pairwise distinct ids, `updateProduct` with the id of a
stored record (within the `INTEGER` range) and field values that fit their columns replaces
that record by one with the same id, the given name, category, description and brand, and
the given price rounded to two decimals; every other record is unchanged, the number of
records is unchanged, and the updated record's id, name and stored price are logged. -/
theorem updateProduct_found (db : Db) (id : Int) (n c : String) (p : Price)
    (d : Option String) (b : String) (r : Product)
    (hnd : (db.rows.map (fun q => q.id)).Nodup) (hr : r ∈ db.rows) (hrid : r.id = id)
    (hid : InRange id) (hfit : Fits n c p b) :
    updateProduct id n c p d b db =
      { result := .returned .undefined,
        db := { rows := db.rows.erase r ++
                  [{ id := id, name := n, category := c, price := stored p,
                     description := d, brand := b }],
                nextId := db.nextId },
        console := [.updating id, .productUpdated id n (stored p)],
        queries := [.update n c p d b id] } ∧
    (updateProduct id n c p d b db).db.rows.length = db.rows.length ∧
    (∀ q ∈ db.rows, q ≠ r → q ∈ (updateProduct id n c p d b db).db.rows) := by
  subst hrid
  have hrun : updateProduct r.id n c p d b db =
      { result := .returned .undefined,
        db := { rows := db.rows.erase r ++
                  [{ id := r.id, name := n, category := c, price := stored p,
                     description := d, brand := b }],
                nextId := db.nextId },
        console := [.updating r.id, .productUpdated r.id n (stored p)],
        queries := [.update n c p d b r.id] } := by
    simp only [updateProduct, updateWhereId_of_fits hid hfit d, filter_id_eq_singleton hnd hr,
      filter_id_ne_erase hnd hr, List.map_cons, List.map_nil]
    rfl
  refine ⟨hrun, ?_, ?_⟩
  · rw [hrun]
    simp only [List.length_append, List.length_singleton]
    rw [List.length_erase_of_mem hr]
    have hpos : 0 < db.rows.length := List.length_pos_of_mem hr
    omega
  · intro q hq hne
    rw [hrun]
    exact List.mem_append_left _ ((List.mem_erase_of_ne hne).2 hq)

theorem updateProduct_found_witness :
    updateProduct 1 "MacBook" "laptops" 2299.99 none "Apple"
        { rows := [{ id := 1, name := "Widget", category := "tools", price := 5,
                     description := none, brand := "BrandX" },
                   { id := 2, name := "Laptop", category := "laptops", price := 1999,
                     description := some "M3", brand := "Apple" }],
          nextId := 3 } =
      { result := .returned .undefined,
        db := { rows := [{ id := 2, name := "Laptop", category := "laptops", price := 1999,
                           description := some "M3", brand := "Apple" },
                         { id := 1, name := "MacBook", category := "laptops", price := 2299.99,
                           description := none, brand := "Apple" }],
                nextId := 3 },
        console := [.updating 1, .productUpdated 1 "MacBook" 2299.99],
        queries := [.update "MacBook" "laptops" 2299.99 none "Apple" 1] } :=
  ((updateProduct_found
      { rows := [{ id := 1, name := "Widget", category := "tools", price := 5,
                   description := none, brand := "BrandX" },
                 { id := 2, name := "Laptop", category := "laptops", price := 1999,
                   description := some "M3", brand := "Apple" }],
        nextId := 3 }
      1 "MacBook" "laptops" 2299.99 none "Apple"
      { id := 1, name := "Widget", category := "tools", price := 5,
        description := none, brand := "BrandX" }
      (by decide) (by simp) rfl (by unfold InRange; decide) (by unfold Fits; decide!)).1).trans
    (by decide!)

/-- C8 fails as stated: for the id 2147483648, which matches no stored product, the DELETE
is rejected ("out of range for type integer"): `deleteProduct` raises and never logs the
not-found line. -/
theorem deleteProduct_out_of_range_example :
    (∀ r ∈ ([{ id := 1, name := "Widget", category := "tools", price := 5,
               description := none, brand := "BrandX" }] : List Product),
        r.id ≠ 2147483648) ∧
    deleteProduct 2147483648
        { rows := [{ id := 1, name := "Widget", category := "tools", price := 5,
                     description := none, brand := "BrandX" }], nextId := 2 } =
      { result := .raised .integerOutOfRange,
        db := { rows := [{ id := 1, name := "Widget", category := "tools", price := 5,
                           description := none, brand := "BrandX" }], nextId := 2 },
        console := [.deleting 2147483648],
        queries := [.delete 2147483648] } := by
  decide!

/-- C8 as amended: for an id within the 32-bit `INTEGER` range that matches no stored
product, `deleteProduct` leaves the store exactly as it was and takes the not-found branch
(one DELETE statement, zero rows, no error raised, no value returned); for an id within the
range that matches, the records that remain are exactly those with another id, unchanged and
in the same order, and with pairwise distinct ids exactly the one matching record is removed
and its id and name are logged. -/
theorem deleteProduct_frame (db : Db) (id : Int) (hid : InRange id) :
    ((∀ r ∈ db.rows, r.id ≠ id) →
      deleteWhereId db id = .ok ([], db) ∧
      deleteProduct id db =
        { result := .returned .undefined, db := db,
          console := [.deleting id, .notFound id],
          queries := [.delete id] }) ∧
    (∀ r ∈ db.rows, r.id = id →
      (deleteProduct id db).result = Completion.returned Returned.undefined ∧
      (deleteProduct id db).db.nextId = db.nextId ∧
      (deleteProduct id db).db.rows.Sublist db.rows ∧
      (∀ q, q ∈ (deleteProduct id db).db.rows ↔ q ∈ db.rows ∧ q.id ≠ id) ∧
      ((db.rows.map (fun q => q.id)).Nodup →
        deleteProduct id db =
          { result := .returned .undefined,
            db := { rows := db.rows.erase r, nextId := db.nextId },
            console := [.deleting id, .productDeleted id r.name],
            queries := [.delete id] })) := by
  constructor
  · intro h
    have hd : deleteWhereId db id = .ok ([], db) := by
      rw [deleteWhereId_of_inRange hid, filter_id_eq_nil h, filter_id_ne_self h]
      rfl
    refine ⟨hd, ?_⟩
    simp only [deleteProduct, hd]
  · intro r hr hrid
    subst hrid
    have hres : (deleteProduct r.id db).result = Completion.returned Returned.undefined ∧
        (deleteProduct r.id db).db =
          { rows := db.rows.filter (fun q => q.id ≠ r.id), nextId := db.nextId } := by
      simp only [deleteProduct, deleteWhereId_of_inRange hid]
      cases (db.rows.filter (fun q => q.id = r.id)).map (fun q => (q.id, q.name)) with
      | nil => exact ⟨rfl, rfl⟩
      | cons x xs => exact ⟨rfl, rfl⟩
    obtain ⟨hres1, hdb⟩ := hres
    refine ⟨hres1, by rw [hdb], ?_, ?_, ?_⟩
    · rw [hdb]
      exact List.filter_sublist _
    · intro q
      rw [hdb]
      simp [List.mem_filter]
    · intro hnd
      simp only [deleteProduct, deleteWhereId_of_inRange hid, filter_id_eq_singleton hnd hr,
        filter_id_ne_erase hnd hr, List.map_cons, List.map_nil]

theorem deleteProduct_frame_witness :
    deleteProduct 8
        { rows := [{ id := 1, name := "Widget", category := "tools", price := 5,
                     description := none, brand := "BrandX" },
                   { id := 2, name := "Laptop", category := "laptops", price := 1999,
                     description := some "M3", brand := "Apple" }],
          nextId := 3 } =
      { result := .returned .undefined,
        db := { rows := [{ id := 1, name := "Widget", category := "tools", price := 5,
                           description := none, brand := "BrandX" },
                         { id := 2, name := "Laptop", category := "laptops", price := 1999,
                           description := some "M3", brand := "Apple" }],
                nextId := 3 },
        console := [.deleting 8, .notFound 8],
        queries := [.delete 8] } ∧
    deleteProduct 1
        { rows := [{ id := 1, name := "Widget", category := "tools", price := 5,
                     description := none, brand := "BrandX" },
                   { id := 2, name := "Laptop", category := "laptops", price := 1999,
                     description := some "M3", brand := "Apple" }],
          nextId := 3 } =
      { result := .returned .undefined,
        db := { rows := [{ id := 2, name := "Laptop", category := "laptops", price := 1999,
                           description := some "M3", brand := "Apple" }],
                nextId := 3 },
        console := [.deleting 1, .productDeleted 1 "Widget"],
        queries := [.delete 1] } :=
  ⟨((deleteProduct_frame _ 8 (by unfold InRange; decide)).1 (by simp)).2,
   (((deleteProduct_frame _ 1 (by unfold InRange; decide)).2
      { id := 1, name := "Widget", category := "tools", price := 5,
        description := none, brand := "BrandX" } (by simp) rfl).2.2.2.2 (by decide)).trans
     (by decide)⟩

/-! ## Sequences of write operations -/

theorem addProduct_db_cases (n c : String) (p : Price) (d : Option String) (b : String)
    (db : Db) :
    ((addProduct n c p d b db).db.rows = db.rows ∧
      db.nextId ≤ (addProduct n c p d b db).db.nextId) ∨
    (∃ row : Product, row.id = db.nextId ∧ varchar 255 n = .ok row.name ∧
      (∀ r ∈ db.rows, r.name ≠ n) ∧
      (addProduct n c p d b db).db = { rows := db.rows ++ [row], nextId := db.nextId + 1 }) := by
  cases hw : whereName db n with
  | cons r rest => exact Or.inl (by rw [addProduct_stored hw]; exact ⟨rfl, le_refl _⟩)
  | nil =>
    have h := whereName_eq_nil_iff.1 hw
    have hadd : (addProduct n c p d b db).db = (insertProduct db n c p d b).1 := by
      simp only [addProduct, selectIdNameByName, hw, List.map_nil]
      split <;> simp_all
    rw [hadd]
    rcases insertProduct_cases db n c p d b with ⟨_, h1, h2⟩ | ⟨row, _, h1, h2, h3⟩
    · exact Or.inl ⟨h1, h2⟩
    · exact Or.inr ⟨row, h1, h2, h, h3⟩

theorem postProducts_db_cases (body : Body) (db : Db) :
    ((postProducts body db).db.rows = db.rows ∧
      db.nextId ≤ (postProducts body db).db.nextId) ∨
    (∃ (n : String) (row : Product), body.name = some n ∧ row.id = db.nextId ∧
      varchar 255 n = .ok row.name ∧ (∀ r ∈ db.rows, r.name ≠ n) ∧
      (postProducts body db).db = { rows := db.rows ++ [row], nextId := db.nextId + 1 }) := by
  obtain ⟨name, category, price, description, brand⟩ := body
  by_cases hcond : (notText name || notText category || notNumber price || notText brand) = true
  · exact Or.inl (by simp [postProducts, hcond, badRequest])
  · cases name with
    | none => simp [notText] at hcond
    | some n =>
    cases category with
    | none => simp [notText] at hcond
    | some c =>
    cases price with
    | none => simp [notNumber] at hcond
    | some p =>
    cases brand with
    | none => simp [notText] at hcond
    | some b =>
    cases hw : whereName db n with
    | cons r rest =>
      exact Or.inl (by simp [postProducts, hcond, selectIdByName, hw])
    | nil =>
      have h := whereName_eq_nil_iff.1 hw
      have hpost : (postProducts ⟨some n, some c, some p, description, some b⟩ db).db =
          (insertProduct db n c p description b).1 := by
        simp only [postProducts, hcond, selectIdByName, hw, List.map_nil]
        simp only [Bool.false_eq_true, if_false, List.length_nil, gt_iff_lt, lt_self_iff_false]
        split <;> simp_all
      rw [hpost]
      rcases insertProduct_cases db n c p description b with ⟨_, h1, h2⟩ | ⟨row, _, h1, h2, h3⟩
      · exact Or.inl ⟨h1, h2⟩
      · exact Or.inr ⟨n, row, rfl, h1, h2, h, h3⟩

theorem updateProduct_db_cases (id : Int) (n c : String) (p : Price) (d : Option String)
    (b : String) (db : Db) :
    (updateProduct id n c p d b db).db = db ∨
    ∃ (n1 c1 b1 : String) (p1 : Price),
      (updateProduct id n c p d b db).db =
        { rows := db.rows.filter (fun r => r.id ≠ id) ++
                    (db.rows.filter (fun r => r.id = id)).map
                      (fun r => setFields r n1 c1 p1 d b1),
          nextId := db.nextId } := by
  unfold updateProduct updateWhereId
  cases hi : int4 id with
  | error e => exact Or.inl rfl
  | ok i =>
    have hii : i = id := by
      unfold int4 at hi
      split at hi
      · cases hi
        rfl
      · cases hi
    subst hii
    cases hf : coerceFields n c p b with
    | error e => exact Or.inl rfl
    | ok f =>
      obtain ⟨n1, c1, p1, b1⟩ := f
      refine Or.inr ⟨n1, c1, b1, p1, ?_⟩
      simp only
      cases ((db.rows.filter (fun r => r.id = i)).map
        (fun r => setFields r n1 c1 p1 d b1)).map (fun r => (r.id, r.name, r.price)) with
      | nil => rfl
      | cons x xs => rfl

theorem deleteProduct_db_cases (id : Int) (db : Db) :
    (deleteProduct id db).db = db ∨
    (deleteProduct id db).db =
      { rows := db.rows.filter (fun r => r.id ≠ id), nextId := db.nextId } := by
  unfold deleteProduct deleteWhereId
  cases hi : int4 id with
  | error e => exact Or.inl rfl
  | ok i =>
    have hii : i = id := by
      unfold int4 at hi
      split at hi
      · cases hi
        rfl
      · cases hi
    subst hii
    right
    simp only
    cases (db.rows.filter (fun r => r.id = i)).map (fun r => (r.id, r.name)) with
    | nil => rfl
    | cons x xs => rfl

theorem SerialIds_empty : SerialIds Db.empty := by
  simp [SerialIds, Db.empty]

theorem SerialIds_of_rows_eq {db db1 : Db} (h : SerialIds db) (hrows : db1.rows = db.rows)
    (hnext : db.nextId ≤ db1.nextId) : SerialIds db1 := by
  obtain ⟨hs, hb⟩ := h
  refine ⟨by rw [hrows]; exact hs, ?_⟩
  intro r hr
  rw [hrows] at hr
  exact lt_of_lt_of_le (hb r hr) hnext

theorem SerialIds_insert {db : Db} (h : SerialIds db) (row : Product)
    (hrow : row.id = db.nextId) :
    SerialIds { rows := db.rows ++ [row], nextId := db.nextId + 1 } := by
  obtain ⟨hs, hb⟩ := h
  constructor
  · simp only [List.map_append, List.map_cons, List.map_nil]
    rw [List.nodup_append]
    refine ⟨hs, List.nodup_singleton _, ?_⟩
    intro x hx hy
    obtain ⟨r, hr, rfl⟩ := List.mem_map.1 hx
    rw [List.mem_singleton] at hy
    have := hb r hr
    omega
  · intro r hr
    rcases List.mem_append.1 hr with hr | hr
    · have := hb r hr
      show r.id < db.nextId + 1
      omega
    · rw [List.mem_singleton] at hr
      subst hr
      show r.id < db.nextId + 1
      omega

theorem map_id_update_perm (l : List Product) (id : Int) (f : Product → Product)
    (hf : ∀ r, (f r).id = r.id) :
    (((l.filter (fun r => r.id ≠ id)) ++ (l.filter (fun r => r.id = id)).map f).map
        (fun r => r.id)).Perm (l.map (fun r => r.id)) := by
  have h1 : ((l.filter (fun r => r.id = id)).map f).map (fun r => r.id) =
      (l.filter (fun r => r.id = id)).map (fun r => r.id) := by
    rw [List.map_map]
    apply List.map_congr_left
    intro r _
    exact hf r
  rw [List.map_append, h1, ← List.map_append]
  apply List.Perm.map
  have h2 : l.filter (fun r => decide (r.id ≠ id)) =
      l.filter (fun r => !(decide (r.id = id))) := by
    apply List.filter_congr
    intro r _
    simp
  rw [h2]
  exact List.perm_append_comm.trans (List.filter_append_perm _ l)

theorem SerialIds_step {db : Db} (h : SerialIds db) (op : Op) : SerialIds (step db op) := by
  cases op with
  | add n c p d b =>
    rcases addProduct_db_cases n c p d b db with ⟨h1, h2⟩ | ⟨row, hrow, _, _, he⟩
    · exact SerialIds_of_rows_eq h h1 h2
    · simpa only [step, he] using SerialIds_insert h row hrow
  | post body =>
    rcases postProducts_db_cases body db with ⟨h1, h2⟩ | ⟨n, row, _, hrow, _, _, he⟩
    · exact SerialIds_of_rows_eq h h1 h2
    · simpa only [step, he] using SerialIds_insert h row hrow
  | update id n c p d b =>
    rcases updateProduct_db_cases id n c p d b db with he | ⟨n1, c1, b1, p1, he⟩
    · simpa only [step, he] using h
    · simp only [step, he]
      obtain ⟨hs, hb⟩ := h
      have hperm := map_id_update_perm db.rows id (fun r => setFields r n1 c1 p1 d b1)
        (fun _ => rfl)
      refine ⟨hperm.nodup_iff.2 hs, ?_⟩
      intro r hr
      have hmem : r.id ∈ db.rows.map (fun q => q.id) :=
        hperm.subset (List.mem_map_of_mem (fun q => q.id) hr)
      obtain ⟨q, hq, hqr⟩ := List.mem_map.1 hmem
      have := hb q hq
      show r.id < db.nextId
      omega
  | delete id =>
    rcases deleteProduct_db_cases id db with he | he
    · simpa only [step, he] using h
    · simp only [step, he]
      obtain ⟨hs, hb⟩ := h
      refine ⟨?_, fun r hr => hb r (List.mem_of_mem_filter hr)⟩
      exact List.Nodup.sublist ((List.filter_sublist _).map _) hs

theorem SerialIds_run (ops : List Op) {db : Db} (h : SerialIds db) : SerialIds (run db ops) := by
  induction ops generalizing db with
  | nil => exact h
  | cons op ops ih => exact ih (SerialIds_step h op)

theorem selectAllOrderById_sorted (db : Db) :
    (selectAllOrderById db).Sorted (fun a b => a.id ≤ b.id) := by
  haveI : IsTotal Product (fun a b => a.id ≤ b.id) := ⟨fun a b => le_total a.id b.id⟩
  haveI : IsTrans Product (fun a b => a.id ≤ b.id) := ⟨fun _ _ _ hab hbc => le_trans hab hbc⟩
  exact List.sorted_insertionSort _ _

/-- C6: after any finite sequence of add, update, delete and POST operations on the empty
table, the listing query returns every stored product exactly once, in strictly ascending id
order, whatever the storage order of the rows (the ids are pairwise distinct, and each was
drawn from the sequence before its next value, so a product created later has a greater id);
`GET /api/products` answers 200 with `success` true, that listing as `data` and its length as
`count`, and `getAllProducts` logs the same count and rows. -/
theorem listing_ascending (ops : List Op) :
    (selectAllOrderById (run Db.empty ops)).Perm (run Db.empty ops).rows ∧
    ((selectAllOrderById (run Db.empty ops)).map (fun r => r.id)).Sorted (· < ·) ∧
    ((selectAllOrderById (run Db.empty ops)).map (fun r => r.id)).Nodup ∧
    (∀ r ∈ selectAllOrderById (run Db.empty ops), r.id < (run Db.empty ops).nextId) ∧
    getProducts (run Db.empty ops) =
      { response := .sent
          { status := 200,
            body := .listing true (selectAllOrderById (run Db.empty ops)).length
                      (selectAllOrderById (run Db.empty ops)) },
        db := run Db.empty ops, queries := [.selectAllOrderById] } ∧
    (getAllProducts (run Db.empty ops)).console =
      [.gettingAll, .foundProducts (selectAllOrderById (run Db.empty ops)).length] ++
        (selectAllOrderById (run Db.empty ops)).map
          (fun r => Line.product r.id r.name r.price r.category) := by
  have h := SerialIds_run ops SerialIds_empty
  have hperm : (selectAllOrderById (run Db.empty ops)).Perm (run Db.empty ops).rows :=
    List.perm_insertionSort _ _
  have hnd : ((selectAllOrderById (run Db.empty ops)).map (fun r => r.id)).Nodup :=
    (List.Perm.nodup_iff (hperm.map _)).2 h.1
  have hle := selectAllOrderById_sorted (run Db.empty ops)
  have hlt : ((selectAllOrderById (run Db.empty ops)).map (fun r => r.id)).Sorted (· < ·) := by
    unfold List.Sorted at hle ⊢
    rw [List.pairwise_map]
    have hne : (selectAllOrderById (run Db.empty ops)).Pairwise (fun a b => a.id ≠ b.id) :=
      List.pairwise_map.1 hnd
    exact (hle.and hne).imp (fun hab => lt_of_le_of_ne hab.1 hab.2)
  refine ⟨hperm, hlt, hnd, ?_, rfl, rfl⟩
  intro r hr
  exact h.2 r (hperm.subset hr)

/-- The sort of the listing is needed: after an update of record 1 the table stores record 2
before the new version of record 1, and the listing returns them by ascending id. -/
theorem listing_after_update_example :
    (run Db.empty
        [.add "Phone" "mobile" 999 none "Apple",
         .add "Tablet" "tablets" 799 none "Samsung",
         .update 1 "Phone 2" "mobile" 1099 none "Apple"]).rows =
      [{ id := 2, name := "Tablet", category := "tablets", price := 799,
         description := none, brand := "Samsung" },
       { id := 1, name := "Phone 2", category := "mobile", price := 1099,
         description := none, brand := "Apple" }] ∧
    selectAllOrderById (run Db.empty
        [.add "Phone" "mobile" 999 none "Apple",
         .add "Tablet" "tablets" 799 none "Samsung",
         .update 1 "Phone 2" "mobile" 1099 none "Apple"]) =
      [{ id := 1, name := "Phone 2", category := "mobile", price := 1099,
         description := none, brand := "Apple" },
       { id := 2, name := "Tablet", category := "tablets", price := 799,
         description := none, brand := "Samsung" }] := by
  decide!

/-- C5, at the failing input: adding "Phone" and "Tablet" to the empty table and then
updating record 2 to the name "Phone" leaves two stored products that share a name;
`updateProduct` sent the UPDATE alone, without a duplicate check. -/
theorem updateProduct_duplicates_name :
    run Db.empty
        [.add "Phone" "mobile" 999 none "Apple",
         .add "Tablet" "tablets" 799 none "Samsung",
         .update 2 "Phone" "tablets" 799 none "Samsung"] =
      { rows := [{ id := 1, name := "Phone", category := "mobile", price := 999,
                   description := none, brand := "Apple" },
                 { id := 2, name := "Phone", category := "tablets", price := 799,
                   description := none, brand := "Samsung" }],
        nextId := 3 } ∧
    ¬ UniqueNames (run Db.empty
        [.add "Phone" "mobile" 999 none "Apple",
         .add "Tablet" "tablets" 799 none "Samsung",
         .update 2 "Phone" "tablets" 799 none "Samsung"]) ∧
    (updateProduct 2 "Phone" "tablets" 799 none "Samsung"
        (run Db.empty
          [.add "Phone" "mobile" 999 none "Apple",
           .add "Tablet" "tablets" 799 none "Samsung"])).queries =
      [.update "Phone" "tablets" 799 none "Samsung" 2] := by
  unfold UniqueNames
  decide!

theorem UniqueNames_insert {db : Db} (h : UniqueNames db) {n : String}
    (hn : ∀ r ∈ db.rows, r.name ≠ n) (row : Product) (hrow : row.name = n) (k : Int) :
    UniqueNames { rows := db.rows ++ [row], nextId := k } := by
  unfold UniqueNames at h ⊢
  rw [List.pairwise_append]
  refine ⟨h, List.pairwise_singleton _ _, ?_⟩
  intro x hx y hy
  rw [List.mem_singleton] at hy
  subst hy
  rw [hrow]
  exact hn x hx

/-- The write paths that check first keep names unique: a sequence of `addProduct`,
`deleteProduct` and `POST /api/products` steps (no `updateProduct`) on the empty table, with
names of at most 255 characters, never stores two products with the same name. -/
theorem UniqueNames_run_without_update (ops : List Op)
    (hops : ∀ op ∈ ops, (∀ id n c p d b, op ≠ Op.update id n c p d b) ∧
      (∀ n c p d b, op = Op.add n c p d b → n.data.length ≤ 255) ∧
      (∀ body n, op = Op.post body → body.name = some n → n.data.length ≤ 255)) :
    UniqueNames (run Db.empty ops) := by
  have key : ∀ (ops : List Op) (db : Db), UniqueNames db →
      (∀ op ∈ ops, (∀ id n c p d b, op ≠ Op.update id n c p d b) ∧
        (∀ n c p d b, op = Op.add n c p d b → n.data.length ≤ 255) ∧
        (∀ body n, op = Op.post body → body.name = some n → n.data.length ≤ 255)) →
      UniqueNames (run db ops) := by
    intro ops
    induction ops with
    | nil => intro db h _; exact h
    | cons op ops ih =>
      intro db h hops
      apply ih (step db op) _ (fun o ho => hops o (List.mem_cons_of_mem op ho))
      obtain ⟨hop1, hop2, hop3⟩ := hops op (List.mem_cons_self op ops)
      cases op with
      | add n c p d b =>
        rcases addProduct_db_cases n c p d b db with ⟨h1, _⟩ | ⟨row, _, hv, hn, he⟩
        · unfold UniqueNames at h ⊢
          simpa only [step, h1] using h
        · have hlen := hop2 n c p d b rfl
          rw [varchar_of_le hlen] at hv
          have hname : row.name = n := by
            cases hv
            rfl
          simpa only [step, he] using UniqueNames_insert h hn row hname _
      | post body =>
        rcases postProducts_db_cases body db with ⟨h1, _⟩ | ⟨n, row, hb, _, hv, hn, he⟩
        · unfold UniqueNames at h ⊢
          simpa only [step, h1] using h
        · have hlen := hop3 body n rfl hb
          rw [varchar_of_le hlen] at hv
          have hname : row.name = n := by
            cases hv
            rfl
          simpa only [step, he] using UniqueNames_insert h hn row hname _
      | update id n c p d b => exact absurd rfl (hop1 id n c p d b)
      | delete id =>
        rcases deleteProduct_db_cases id db with he | he
        · simpa only [step, he] using h
        · simp only [step, he]
          exact List.Pairwise.sublist (List.filter_sublist _) h
  exact key ops Db.empty (by simp [UniqueNames, Db.empty]) hops

end ApiProduct
